import Mathlib

/-!
Verification of the UnitWise OTP-session core (backend/functions of the
Powerview-Labs/unitwise repository) against its natural-language
specification.

The JavaScript cloud functions `sendOtp`, `verifyOtp` and
`resetPassword.handleRequestOTP` are shallowly embedded as pure Lean
functions.  External collaborators (Firestore, bcrypt, Twilio, Firebase
Auth) are passed in as explicit environment values:

* the Firestore `otp_sessions` collection is a `Store`, an association
  list of session id / session record pairs;
* `bcrypt.compare` is an oracle `String → String → Bool` in the
  environment, and `bcrypt.hash` an oracle `String → String`;
* a Twilio `send` call's result is a `TwilioSendResult` value;
* Firebase Auth lookups/creations are `AuthLookup` / `Except` values
  (`Except.error` models a thrown exception, which the outer
  `try/catch` of the cloud function turns into an `INTERNAL_ERROR`
  response).

Each function returns, besides the HTTP-level outcome, the resulting
store, the produced log lines, and effect flags (whether the store was
read, whether `bcrypt.compare` was invoked, whether the Twilio send was
invoked, which deletions were scheduled by `setTimeout`), so that the
frame and ordering properties of the specification can be stated.

Timestamps are modelled as `Int` milliseconds (JS `Date.getTime()`).
-/

namespace Unitwise

/-- One record of the `otp_sessions` (or `password_reset_sessions`)
Firestore collection, as written by `sendOtp` / `handleRequestOTP`.
Password-reset records lack `source`/`name`/`email`; those fields are
defaulted there. -/
structure Session where
  phone : String
  otpHash : String
  createdAt : Int
  expiresAt : Int
  attempts : Nat
  source : String
  used : Bool
  name : Option String
  email : Option String
  messageSid : String
deriving DecidableEq

/-- The session store: Firestore collection keyed by document id. -/
abbrev Store := List (String × Session)

/-- `sessionRef.update(partial)` on document `id`. -/
def storeUpdate (store : Store) (id : String) (f : Session → Session) : Store :=
  store.map (fun p => if p.1 = id then (p.1, f p.2) else p)

/-- `sessionRef.delete()` on document `id`. -/
def storeDelete (store : Store) (id : String) : Store :=
  store.filter (fun p => p.1 ≠ id)

/-- JS falsiness of an optional string request field: absent (`undefined`
/ `null`) or the empty string. -/
def falsy : Option String → Bool
  | none => true
  | some s => s == ""

/-- `s || d` for a string request field with default `d`. -/
def orDefault (o : Option String) (d : String) : String :=
  if falsy o then d else o.getD ""

/-- `s || null` for a string request field. -/
def orNull (o : Option String) : Option String :=
  if falsy o then none else o

/-- `isValidOTP` of verifyOtp.js: the regex `^\d{6}$`. -/
def isValidOTP (otp : String) : Bool :=
  otp.length == 6 && otp.toList.all (fun c => c.isDigit)

/-- `isValidPhoneNumber` of sendOtp.js (also inlined in
resetPassword.js): the E.164 regex `^\+[1-9]\d{1,14}$`. -/
def isValidPhoneNumber (phone : String) : Bool :=
  match phone.toList with
  | '+' :: d :: rest =>
      d.isDigit && d ≠ '0' && decide (1 ≤ rest.length) &&
        decide (rest.length ≤ 14) && rest.all (fun c => c.isDigit)
  | _ => false

/-- `maskPhoneNumber` of utils/twilioClient.js. -/
def maskPhoneNumber (phone : String) : String :=
  if phone.length < 8 then "***INVALID***"
  else phone.take 4 ++ String.mk (List.replicate (phone.length - 7) '*') ++
    phone.takeRight 3

/-- `Math.ceil(a / b)` on integers (for positive `b`): the negated floor
division of the negation. -/
def ceilDiv (a b : Int) : Int :=
  -((-a) / b)

/-- The `createdAt` of `recentSessions.docs[0]`.  A Firestore query with
a range filter on `createdAt` returns its results ordered by that field
ascending, so `docs[0]` is the qualifying session with the minimal
`createdAt`. -/
def oldestCreatedAt : List Session → Int
  | [] => 0
  | s :: rest => rest.foldl (fun m t => min m t.createdAt) s.createdAt

/-- The Firestore query of checkRateLimit: sessions of `phone` created
strictly after `since`. -/
def recentSessions (store : Store) (phone : String) (since : Int) : List Session :=
  (store.map (fun p => p.2)).filter (fun s => s.phone == phone && since < s.createdAt)

/-- Result of `checkRateLimit` / `checkResetRateLimit`. -/
inductive RateLimitResult where
  | allowed
  | limited (waitMinutes : Int)
deriving DecidableEq

/-- `checkRateLimit` of sendOtp.js.  `queryFails` models the backing
store query throwing; the catch block logs and allows (fail-open). -/
def checkRateLimit (queryFails : Bool) (store : Store) (phone : String)
    (now : Int) : RateLimitResult :=
  if queryFails then .allowed
  else
    let recents := recentSessions store phone (now - 15 * 60 * 1000)
    if 3 ≤ recents.length then
      let oldestTime := oldestCreatedAt recents
      let waitMillis := oldestTime + 15 * 60 * 1000 - now
      .limited (ceilDiv waitMillis 60000)
    else .allowed

/-- `checkResetRateLimit` of resetPassword.js: same policy as
`checkRateLimit`, over the `password_reset_sessions` collection. -/
def checkResetRateLimit (queryFails : Bool) (store : Store) (phone : String)
    (now : Int) : RateLimitResult :=
  if queryFails then .allowed
  else
    let recents := recentSessions store phone (now - 15 * 60 * 1000)
    if 3 ≤ recents.length then
      let oldestTime := oldestCreatedAt recents
      let waitMillis := oldestTime + 15 * 60 * 1000 - now
      .limited (ceilDiv waitMillis 60000)
    else .allowed

/-- Body of the `sendOtp` HTTP request (`req.body`). -/
structure SendRequest where
  phone : Option String
  name : Option String
  email : Option String
  source : Option String

/-- Result of one Twilio `send` call (`sendWhatsAppOTP` / `sendSMSOTP`).
`error`/`message` are the error payload used when `success` is false. -/
structure TwilioSendResult where
  success : Bool
  messageSid : String
  error : String
  message : String

/-- Environment of one `sendOtp` invocation: the wall clock, whether the
rate-limit query throws, the value produced by `generateSecureOTP`, the
bcrypt hash oracle, the fresh Firestore document id, and the result the
Twilio client returns if called. -/
structure SendEnv where
  now : Int
  queryFails : Bool
  otp : String
  hash : String → String
  newSessionId : String
  twilio : TwilioSendResult

/-- HTTP-level outcome of `sendOtp`.  `ok` carries every field of the
200 response body except the constant `success: true`. -/
inductive SendOutcome where
  | methodNotAllowed
  | missingPhone
  | invalidPhoneFormat
  | rateLimited (waitMinutes : Int) (retryAfter : Int)
  | sendFailed (errorCode : String)
  | ok (sessionId : String) (messageSid : String) (message : String)
      (expiresIn : Nat) (testOtp : String)
deriving DecidableEq

/-- HTTP status of each `sendOtp` outcome, as in the source. -/
def sendStatus : SendOutcome → Nat
  | .methodNotAllowed => 405
  | .missingPhone => 400
  | .invalidPhoneFormat => 400
  | .rateLimited _ _ => 429
  | .sendFailed _ => 500
  | .ok _ _ _ _ _ => 200

/-- Observable result of one `sendOtp` invocation: response outcome,
resulting `otp_sessions` store, produced log lines, and whether the
Twilio send was invoked. -/
structure SendResult where
  outcome : SendOutcome
  store : Store
  logs : List String
  twilioCalled : Bool

/-- Shallow embedding of the `sendOtp` cloud function (sendOtp.js).
The Twilio branch on `source === 'sms'` picks between two senders with
the same contract, so a single `env.twilio` result models either. -/
def sendOtp (env : SendEnv) (method : String) (req : SendRequest)
    (store : Store) : SendResult :=
  if method ≠ "POST" then
    { outcome := .methodNotAllowed, store := store, logs := [], twilioCalled := false }
  else if falsy req.phone then
    { outcome := .missingPhone, store := store, logs := [], twilioCalled := false }
  else
    let phone := req.phone.getD ""
    if !(isValidPhoneNumber phone) then
      { outcome := .invalidPhoneFormat, store := store, logs := [], twilioCalled := false }
    else
      let maskedPhone := maskPhoneNumber phone
      let logs0 := ["[sendOtp] OTP request for " ++ maskedPhone]
      match checkRateLimit env.queryFails store phone env.now with
      | .limited waitMinutes =>
          { outcome := .rateLimited waitMinutes (waitMinutes * 60),
            store := store,
            logs := logs0 ++ ["[sendOtp] Rate limit exceeded for " ++ maskedPhone],
            twilioCalled := false }
      | .allowed =>
          let otp := env.otp
          let logs1 := logs0 ++
            ["[sendOtp] Generated OTP for " ++ maskedPhone,
             "[sendOtp] TEST MODE - OTP: " ++ otp]
          let otpHash := env.hash otp
          let sessionData : Session :=
            { phone := phone, otpHash := otpHash, createdAt := env.now,
              expiresAt := env.now + 5 * 60 * 1000, attempts := 0,
              source := orDefault req.source "whatsapp", used := false,
              name := orNull req.name, email := orNull req.email,
              messageSid := "" }
          if !env.twilio.success then
            { outcome := .sendFailed env.twilio.error,
              store := store,
              logs := logs1 ++ ["[sendOtp] Twilio send failed for " ++ maskedPhone],
              twilioCalled := true }
          else
            { outcome := .ok env.newSessionId env.twilio.messageSid
                ("OTP sent via " ++ orDefault req.source "WhatsApp") 300 otp,
              store := store ++
                [(env.newSessionId, { sessionData with messageSid := env.twilio.messageSid })],
              logs := logs1 ++
                ["[sendOtp] OTP session created for " ++ maskedPhone ++
                 ". SessionID: " ++ env.newSessionId],
              twilioCalled := true }

/-- Result of `admin.auth().getUserByPhoneNumber`: a user record, the
`auth/user-not-found` error, or any other thrown error. -/
inductive AuthLookup where
  | found (uid : String)
  | notFound
  | failure
deriving DecidableEq

/-- Environment of one `resetPassword action=request_otp` invocation. -/
structure ResetEnv where
  now : Int
  queryFails : Bool
  authLookup : AuthLookup
  otp : String
  hash : String → String
  newSessionId : String
  twilio : TwilioSendResult

/-- HTTP-level outcome of `handleRequestOTP`.  `maybeSent` is the
anti-enumeration 200 response returned when the phone has no account. -/
inductive ResetOutcome where
  | invalidPhoneFormat
  | rateLimited (waitMinutes : Int) (retryAfter : Int)
  | maybeSent
  | internalError
  | sendFailed (errorCode : String)
  | ok (sessionId : String) (messageSid : String) (expiresIn : Nat) (testOtp : String)
deriving DecidableEq

/-- HTTP status of each `handleRequestOTP` outcome. -/
def resetStatus : ResetOutcome → Nat
  | .invalidPhoneFormat => 400
  | .rateLimited _ _ => 429
  | .maybeSent => 200
  | .internalError => 500
  | .sendFailed _ => 500
  | .ok _ _ _ _ => 200

/-- Observable result of one `handleRequestOTP` invocation over the
`password_reset_sessions` store. -/
structure ResetResult where
  outcome : ResetOutcome
  store : Store
  logs : List String
  twilioCalled : Bool

/-- Shallow embedding of `handleRequestOTP` of resetPassword.js (the
`action=request_otp` arm, assumed dispatched from a POST request).  An
`authLookup` failure other than user-not-found is rethrown and caught by
the wrapper's catch, yielding `internalError`. -/
def handleRequestOTP (env : ResetEnv) (phone? : Option String)
    (store : Store) : ResetResult :=
  if falsy phone? || !(isValidPhoneNumber (phone?.getD "")) then
    { outcome := .invalidPhoneFormat, store := store, logs := [], twilioCalled := false }
  else
    let phone := phone?.getD ""
    let maskedPhone := maskPhoneNumber phone
    let logs0 := ["[resetPassword] OTP request for password reset: " ++ maskedPhone]
    match checkResetRateLimit env.queryFails store phone env.now with
    | .limited waitMinutes =>
        { outcome := .rateLimited waitMinutes (waitMinutes * 60),
          store := store,
          logs := logs0 ++ ["[resetPassword] Rate limit exceeded for " ++ maskedPhone],
          twilioCalled := false }
    | .allowed =>
        match env.authLookup with
        | .notFound =>
            { outcome := .maybeSent, store := store,
              logs := logs0 ++ ["[resetPassword] User not found: " ++ maskedPhone],
              twilioCalled := false }
        | .failure =>
            { outcome := .internalError, store := store, logs := logs0,
              twilioCalled := false }
        | .found _ =>
            let otp := env.otp
            let otpHash := env.hash otp
            let sessionData : Session :=
              { phone := phone, otpHash := otpHash, createdAt := env.now,
                expiresAt := env.now + 5 * 60 * 1000, attempts := 0,
                source := "", used := false, name := none, email := none,
                messageSid := "" }
            if !env.twilio.success then
              { outcome := .sendFailed env.twilio.error,
                store := store,
                logs := logs0 ++
                  ["[resetPassword] Failed to send OTP to " ++ maskedPhone],
                twilioCalled := true }
            else
              { outcome := .ok env.newSessionId env.twilio.messageSid 300 otp,
                store := store ++
                  [(env.newSessionId, { sessionData with messageSid := env.twilio.messageSid })],
                logs := logs0 ++
                  ["[resetPassword] OTP sent for password reset: " ++ maskedPhone,
                   "[resetPassword] TEST MODE - OTP: " ++ otp],
                twilioCalled := true }

/-- Body of the `verifyOtp` HTTP request (`req.body`). -/
structure VerifyRequest where
  sessionId : Option String
  otp : Option String
  phone : Option String

/-- Environment of one `verifyOtp` invocation: the wall clock, the
bcrypt compare oracle, and the Firebase Auth collaborators.
`createCustomToken` / `createUser` return `Except.error ()` to model a
thrown error (caught by the function's outer try/catch). -/
structure VerifyEnv where
  now : Int
  compare : String → String → Bool
  getUserByPhone : String → AuthLookup
  createCustomToken : String → Except Unit String
  createUser : String → Except Unit String

/-- `checkUserExists` of verifyOtp.js: maps `auth/user-not-found` to a
non-existence answer and rethrows any other error. -/
def checkUserExists (env : VerifyEnv) (phone : String) :
    Except Unit (Option String) :=
  match env.getUserByPhone phone with
  | .found uid => .ok (some uid)
  | .notFound => .ok none
  | .failure => .error ()

/-- HTTP-level outcome of `verifyOtp`. -/
inductive VerifyOutcome where
  | methodNotAllowed
  | missingFields
  | invalidOtpFormat
  | sessionNotFound
  | phoneMismatch
  | otpAlreadyUsed
  | expiredOtp
  | maxAttemptsExceeded
  | invalidOtp (attemptsRemaining : Nat)
  | okExisting (uid : String) (customToken : String)
  | okNew (uid : String) (customToken : String) (name : Option String)
      (email : Option String)
  | internalError
deriving DecidableEq

/-- HTTP status of each `verifyOtp` outcome, as in the source. -/
def verifyStatus : VerifyOutcome → Nat
  | .methodNotAllowed => 405
  | .missingFields => 400
  | .invalidOtpFormat => 400
  | .sessionNotFound => 404
  | .phoneMismatch => 403
  | .otpAlreadyUsed => 403
  | .expiredOtp => 403
  | .maxAttemptsExceeded => 403
  | .invalidOtp _ => 403
  | .okExisting _ _ => 200
  | .okNew _ _ _ _ => 200
  | .internalError => 500

/-- Observable result of one `verifyOtp` invocation: response outcome,
resulting `otp_sessions` store, the ids whose deletion was scheduled by
`setTimeout` (grace-delay deletes, not yet applied to `store`), whether
`bcrypt.compare` was invoked, and how many store reads were performed. -/
structure VerifyResult where
  outcome : VerifyOutcome
  store : Store
  scheduledDeletes : List String
  compareCalled : Bool
  storeReads : Nat

/-- The response computed by verifyOtp.js after a valid OTP: the
`checkUserExists` lookup, then token minting for an existing user, or
user creation plus token minting for a new one.  This runs after the
session is already marked used and its grace-delay deletion scheduled;
any thrown Firebase Auth error is caught by the outer try/catch and
becomes `internalError`. -/
def verifySuccessOutcome (env : VerifyEnv) (phone : String) (s : Session) :
    VerifyOutcome :=
  match checkUserExists env phone with
  | .error _ => .internalError
  | .ok (some uid) =>
      match env.createCustomToken uid with
      | .error _ => .internalError
      | .ok tok => .okExisting uid tok
  | .ok none =>
      match env.createUser phone with
      | .error _ => .internalError
      | .ok uid =>
          match env.createCustomToken uid with
          | .error _ => .internalError
          | .ok tok => .okNew uid tok s.name s.email

/-- Shallow embedding of the `verifyOtp` cloud function (verifyOtp.js).
Checks run in source order: method, missing fields, OTP format, session
existence, phone binding, `used`, expiry, attempt limit, bcrypt compare;
on compare success the session is marked used and its grace-delay
deletion scheduled before any Firebase Auth call. -/
def verifyOtp (env : VerifyEnv) (method : String) (req : VerifyRequest)
    (store : Store) : VerifyResult :=
  if method ≠ "POST" then
    ⟨.methodNotAllowed, store, [], false, 0⟩
  else if falsy req.sessionId || falsy req.otp || falsy req.phone then
    ⟨.missingFields, store, [], false, 0⟩
  else if !(isValidOTP (req.otp.getD "")) then
    ⟨.invalidOtpFormat, store, [], false, 0⟩
  else
    match store.lookup (req.sessionId.getD "") with
    | none => ⟨.sessionNotFound, store, [], false, 1⟩
    | some s =>
        if s.phone ≠ req.phone.getD "" then
          ⟨.phoneMismatch, store, [], false, 1⟩
        else if s.used then
          ⟨.otpAlreadyUsed, store, [], false, 1⟩
        else if s.expiresAt < env.now then
          ⟨.expiredOtp, storeDelete store (req.sessionId.getD ""), [], false, 1⟩
        else if 5 ≤ s.attempts then
          ⟨.maxAttemptsExceeded, storeDelete store (req.sessionId.getD ""), [], false, 1⟩
        else if !(env.compare (req.otp.getD "") s.otpHash) then
          ⟨.invalidOtp (5 - (s.attempts + 1)),
           storeUpdate store (req.sessionId.getD "")
             (fun t => { t with attempts := s.attempts + 1 }),
           [], true, 1⟩
        else
          ⟨verifySuccessOutcome env (req.phone.getD "") s,
           storeUpdate store (req.sessionId.getD "") (fun t => { t with used := true }),
           [req.sessionId.getD ""], true, 1⟩

/-- The success transition of the OTC state machine was taken: every
pre-check passed and the bcrypt comparison succeeded.  The outcome is a
200 success, or `internalError` when a subsequent Firebase Auth call
threw (the session is already marked used and scheduled for deletion in
that case). -/
def tookSuccessTransition : VerifyOutcome → Bool
  | .okExisting _ _ => true
  | .okNew _ _ _ _ => true
  | .internalError => true
  | _ => false

/-- Some Firebase Auth call of the success path throws in environment
`env` for `phone`. -/
def idpThrows (env : VerifyEnv) (phone : String) : Bool :=
  match env.getUserByPhone phone with
  | .failure => true
  | .found uid =>
      match env.createCustomToken uid with
      | .error _ => true
      | .ok _ => false
  | .notFound =>
      match env.createUser phone with
      | .error _ => true
      | .ok uid =>
          match env.createCustomToken uid with
          | .error _ => true
          | .ok _ => false

/-! ### Helper lemmas about the store and the validators -/

theorem lookup_storeDelete_self (store : Store) (id : String) :
    (storeDelete store id).lookup id = none := by
  induction store with
  | nil => rfl
  | cons p t ih =>
      obtain ⟨a, v⟩ := p
      by_cases h : a = id
      · simpa [storeDelete, List.filter_cons, h] using ih
      · have hb : (id == a) = false := by simp [Ne.symm h]
        simpa [storeDelete, List.filter_cons, h, List.lookup_cons, hb] using ih

theorem lookup_storeDelete_ne (store : Store) (k id : String) (h : id ≠ k) :
    (storeDelete store k).lookup id = store.lookup id := by
  induction store with
  | nil => rfl
  | cons p t ih =>
      obtain ⟨a, v⟩ := p
      by_cases ha : a = k
      · subst ha
        have hb : (id == a) = false := by simp [h]
        simpa [storeDelete, List.filter_cons, List.lookup_cons, hb] using ih
      · by_cases hid : id = a
        · have hbt : (id == a) = true := by simp [hid]
          simp [storeDelete, List.filter_cons, ha, List.lookup_cons, hbt]
        · have hb : (id == a) = false := by simp [hid]
          simpa [storeDelete, List.filter_cons, ha, List.lookup_cons, hb] using ih

theorem lookup_storeUpdate_self (store : Store) (id : String)
    (f : Session → Session) (s : Session) (h : store.lookup id = some s) :
    (storeUpdate store id f).lookup id = some (f s) := by
  induction store with
  | nil => simp at h
  | cons p t ih =>
      obtain ⟨a, v⟩ := p
      by_cases hid : id = a
      · have hbt : (id == a) = true := by simp [hid]
        rw [List.lookup_cons] at h
        simp only [hbt, Option.some.injEq] at h
        simp [storeUpdate, List.lookup_cons, hbt, hid, h]
      · have hb : (id == a) = false := by simp [hid]
        have ha' : ¬ a = id := fun hh => hid hh.symm
        rw [List.lookup_cons] at h
        simp only [hb] at h
        have := ih h
        simpa [storeUpdate, List.lookup_cons, hb, ha'] using this

theorem lookup_storeUpdate_isSome (store : Store) (k id : String)
    (f : Session → Session) :
    ((storeUpdate store k f).lookup id).isSome = (store.lookup id).isSome := by
  induction store with
  | nil => rfl
  | cons p t ih =>
      obtain ⟨a, v⟩ := p
      by_cases ha : a = k
      · subst ha
        by_cases hid : id = a
        · have hbt : (id == a) = true := by simp [hid]
          simp [storeUpdate, List.lookup_cons, hbt]
        · have hb : (id == a) = false := by simp [hid]
          simpa [storeUpdate, List.lookup_cons, hb] using ih
      · by_cases hid : id = a
        · have hbt : (id == a) = true := by simp [hid]
          simp [storeUpdate, List.lookup_cons, hbt, ha]
        · have hb : (id == a) = false := by simp [hid]
          simpa [storeUpdate, List.lookup_cons, hb, ha] using ih

theorem lookup_append_of_isSome (store ext : Store) (id : String)
    (h : (store.lookup id).isSome) :
    (store ++ ext).lookup id = store.lookup id := by
  induction store with
  | nil => simp at h
  | cons p t ih =>
      obtain ⟨a, v⟩ := p
      by_cases hid : id = a
      · have hbt : (id == a) = true := by simp [hid]
        simp [List.cons_append, List.lookup_cons, hbt]
      · have hb : (id == a) = false := by simp [hid]
        rw [List.lookup_cons] at h
        simp only [hb] at h
        simp [List.cons_append, List.lookup_cons, hb, ih h]

theorem isValidOTP_ne_empty (otp : String) (h : isValidOTP otp = true) :
    (otp == "") = false := by
  rcases eq_or_ne otp "" with rfl | hne
  · simp [isValidOTP] at h
  · simp [hne]

theorem isValidPhoneNumber_ne_empty (phone : String)
    (h : isValidPhoneNumber phone = true) : (phone == "") = false := by
  rcases eq_or_ne phone "" with rfl | hne
  · simp [isValidPhoneNumber] at h
  · simp [hne]

theorem oldestCreatedAt_mem (l : List Session) (h : l ≠ []) :
    ∃ s ∈ l, oldestCreatedAt l = s.createdAt := by
  rcases l with _ | ⟨a, rest⟩
  · exact absurd rfl h
  · clear h
    simp only [oldestCreatedAt]
    induction rest generalizing a with
    | nil => exact ⟨a, by simp⟩
    | cons b bs ih =>
        rcases min_cases a.createdAt b.createdAt with ⟨hmin, _⟩ | ⟨hmin, _⟩
        · rcases ih a with ⟨s, hs, heq⟩
          refine ⟨s, ?_, ?_⟩
          · rcases List.mem_cons.mp hs with rfl | hs'
            · exact List.mem_cons_self _ _
            · exact List.mem_cons_of_mem _ (List.mem_cons_of_mem _ hs')
          · simpa [List.foldl_cons, hmin] using heq
        · rcases ih b with ⟨s, hs, heq⟩
          refine ⟨s, ?_, ?_⟩
          · rcases List.mem_cons.mp hs with rfl | hs'
            · exact List.mem_cons_of_mem _ (List.mem_cons_self _ _)
            · exact List.mem_cons_of_mem _ (List.mem_cons_of_mem _ hs')
          · simpa [List.foldl_cons, hmin] using heq

theorem tookSuccessTransition_verifySuccessOutcome (env : VerifyEnv)
    (phone : String) (s : Session) :
    tookSuccessTransition (verifySuccessOutcome env phone s) = true := by
  unfold verifySuccessOutcome checkUserExists
  rcases hA : env.getUserByPhone phone with uid | _ | _
  · rcases hT : env.createCustomToken uid with _ | tok <;>
      simp [hT, tookSuccessTransition]
  · rcases hU : env.createUser phone with _ | uid
    · simp [hU, tookSuccessTransition]
    · rcases hT : env.createCustomToken uid with _ | tok <;>
        simp [hU, hT, tookSuccessTransition]
  · simp [tookSuccessTransition]

theorem verifySuccessOutcome_of_idpThrows (env : VerifyEnv) (phone : String)
    (s : Session) (h : idpThrows env phone = true) :
    verifySuccessOutcome env phone s = .internalError := by
  unfold verifySuccessOutcome checkUserExists
  unfold idpThrows at h
  rcases hA : env.getUserByPhone phone with uid | _ | _ <;> rw [hA] at h
  · rcases hT : env.createCustomToken uid with _ | tok
    · simp [hT]
    · simp [hT] at h
  · rcases hU : env.createUser phone with _ | uid
    · simp [hU]
    · rcases hT : env.createCustomToken uid with _ | tok
      · simp [hU, hT]
      · simp [hU, hT] at h

/-! ### Branch equations of `verifyOtp` on well-formed requests -/

theorem verifyOtp_eq_notFound (env : VerifyEnv) (sid otp phone : String)
    (store : Store) (hsid : (sid == "") = false)
    (hotp : isValidOTP otp = true) (hph : (phone == "") = false)
    (hlk : store.lookup sid = none) :
    verifyOtp env "POST" ⟨some sid, some otp, some phone⟩ store =
      ⟨.sessionNotFound, store, [], false, 1⟩ := by
  have hotp0 : (otp == "") = false := isValidOTP_ne_empty otp hotp
  simp [verifyOtp, falsy, hsid, hph, hotp0, hotp, hlk]

theorem verifyOtp_eq_phoneMismatch (env : VerifyEnv) (sid otp phone : String)
    (store : Store) (s : Session) (hsid : (sid == "") = false)
    (hotp : isValidOTP otp = true) (hph : (phone == "") = false)
    (hlk : store.lookup sid = some s) (hne : s.phone ≠ phone) :
    verifyOtp env "POST" ⟨some sid, some otp, some phone⟩ store =
      ⟨.phoneMismatch, store, [], false, 1⟩ := by
  have hotp0 : (otp == "") = false := isValidOTP_ne_empty otp hotp
  simp [verifyOtp, falsy, hsid, hph, hotp0, hotp, hlk, hne]

theorem verifyOtp_eq_used (env : VerifyEnv) (sid otp phone : String)
    (store : Store) (s : Session) (hsid : (sid == "") = false)
    (hotp : isValidOTP otp = true) (hph : (phone == "") = false)
    (hlk : store.lookup sid = some s) (heq : s.phone = phone)
    (hu : s.used = true) :
    verifyOtp env "POST" ⟨some sid, some otp, some phone⟩ store =
      ⟨.otpAlreadyUsed, store, [], false, 1⟩ := by
  have hotp0 : (otp == "") = false := isValidOTP_ne_empty otp hotp
  simp [verifyOtp, falsy, hsid, hph, hotp0, hotp, hlk, heq, hu]

theorem verifyOtp_eq_expired (env : VerifyEnv) (sid otp phone : String)
    (store : Store) (s : Session) (hsid : (sid == "") = false)
    (hotp : isValidOTP otp = true) (hph : (phone == "") = false)
    (hlk : store.lookup sid = some s) (heq : s.phone = phone)
    (hu : s.used = false) (hexp : s.expiresAt < env.now) :
    verifyOtp env "POST" ⟨some sid, some otp, some phone⟩ store =
      ⟨.expiredOtp, storeDelete store sid, [], false, 1⟩ := by
  have hotp0 : (otp == "") = false := isValidOTP_ne_empty otp hotp
  simp [verifyOtp, falsy, hsid, hph, hotp0, hotp, hlk, heq, hu, hexp]

theorem verifyOtp_eq_maxAttempts (env : VerifyEnv) (sid otp phone : String)
    (store : Store) (s : Session) (hsid : (sid == "") = false)
    (hotp : isValidOTP otp = true) (hph : (phone == "") = false)
    (hlk : store.lookup sid = some s) (heq : s.phone = phone)
    (hu : s.used = false) (hexp : ¬ s.expiresAt < env.now)
    (h5 : 5 ≤ s.attempts) :
    verifyOtp env "POST" ⟨some sid, some otp, some phone⟩ store =
      ⟨.maxAttemptsExceeded, storeDelete store sid, [], false, 1⟩ := by
  have hotp0 : (otp == "") = false := isValidOTP_ne_empty otp hotp
  simp [verifyOtp, falsy, hsid, hph, hotp0, hotp, hlk, heq, hu, hexp, h5]

theorem verifyOtp_eq_badCompare (env : VerifyEnv) (sid otp phone : String)
    (store : Store) (s : Session) (hsid : (sid == "") = false)
    (hotp : isValidOTP otp = true) (hph : (phone == "") = false)
    (hlk : store.lookup sid = some s) (heq : s.phone = phone)
    (hu : s.used = false) (hexp : ¬ s.expiresAt < env.now)
    (hlt : s.attempts < 5) (hcmp : env.compare otp s.otpHash = false) :
    verifyOtp env "POST" ⟨some sid, some otp, some phone⟩ store =
      ⟨.invalidOtp (5 - (s.attempts + 1)),
       storeUpdate store sid (fun t => { t with attempts := s.attempts + 1 }),
       [], true, 1⟩ := by
  have hotp0 : (otp == "") = false := isValidOTP_ne_empty otp hotp
  have h5' : ¬ 5 ≤ s.attempts := Nat.not_le.mpr hlt
  simp [verifyOtp, falsy, hsid, hph, hotp0, hotp, hlk, heq, hu, hexp, h5', hcmp]

theorem verifyOtp_eq_success (env : VerifyEnv) (sid otp phone : String)
    (store : Store) (s : Session) (hsid : (sid == "") = false)
    (hotp : isValidOTP otp = true) (hph : (phone == "") = false)
    (hlk : store.lookup sid = some s) (heq : s.phone = phone)
    (hu : s.used = false) (hexp : ¬ s.expiresAt < env.now)
    (hlt : s.attempts < 5) (hcmp : env.compare otp s.otpHash = true) :
    verifyOtp env "POST" ⟨some sid, some otp, some phone⟩ store =
      ⟨verifySuccessOutcome env phone s,
       storeUpdate store sid (fun t => { t with used := true }),
       [sid], true, 1⟩ := by
  have hotp0 : (otp == "") = false := isValidOTP_ne_empty otp hotp
  have h5' : ¬ 5 ≤ s.attempts := Nat.not_le.mpr hlt
  simp [verifyOtp, falsy, hsid, hph, hotp0, hotp, hlk, heq, hu, hexp, h5', hcmp]

/-! ### Claim theorems -/

/-- Concrete issuance environment: rate-limit query healthy, code
`123456` generated, Twilio send succeeding with sid `SM1`. -/
def envIssue : SendEnv :=
  { now := 0, queryFails := false, otp := "123456",
    hash := fun c => "H" ++ c, newSessionId := "sess1",
    twilio := { success := true, messageSid := "SM1", error := "", message := "" } }

/-- Concrete issuance request for `+2348100000000`. -/
def reqIssue : SendRequest :=
  { phone := some "+2348100000000", name := some "Ifeanyi",
    email := none, source := none }

/-- C1: refuted on the code.  For the issuance request `+2348100000000`
with a successful send, the 200 response body carries the plaintext code
in its `testOtp` field, and the log line
`[sendOtp] TEST MODE - OTP: 123456` contains the plaintext code — the
emitted result does not consist only of session id, correlation id and
expiry, and issuance does log the plaintext code. -/
theorem c1_sendOtp_emits_plaintext_code :
    (sendOtp envIssue "POST" reqIssue []).outcome =
      .ok "sess1" "SM1" "OTP sent via WhatsApp" 300 "123456" ∧
    "[sendOtp] TEST MODE - OTP: " ++ "123456" ∈
      (sendOtp envIssue "POST" reqIssue []).logs := by
  constructor
  · rfl
  · show _ ∈ (sendOtp envIssue "POST" reqIssue []).logs
    have h : (sendOtp envIssue "POST" reqIssue []).logs =
        ["[sendOtp] OTP request for " ++ "+234*******000",
         "[sendOtp] Generated OTP for " ++ "+234*******000",
         "[sendOtp] TEST MODE - OTP: " ++ "123456",
         "[sendOtp] OTP session created for " ++ "+234*******000" ++
           ". SessionID: " ++ "sess1"] := by rfl
    rw [h]
    simp

/-- Concrete verification environment used for counterexamples: every
comparison fails, no user exists, Firebase Auth never throws. -/
def envVerify : VerifyEnv :=
  { now := 0, compare := fun _ _ => false,
    getUserByPhone := fun _ => .notFound,
    createCustomToken := fun u => .ok ("tok_" ++ u),
    createUser := fun p => .ok ("uid_" ++ p) }

/-- C8 counterexample: a verification request whose phone `abc` is
malformed (not E.164) is not rejected by validation — the code performs
a session-store read and answers `SESSION_NOT_FOUND`, not a validation
error. -/
theorem c8_counterexample_malformed_phone_reaches_store :
    isValidPhoneNumber "abc" = false ∧
    (verifyOtp envVerify "POST"
      ⟨some "sess1", some "123456", some "abc"⟩ []).storeReads = 1 ∧
    (verifyOtp envVerify "POST"
      ⟨some "sess1", some "123456", some "abc"⟩ []).outcome = .sessionNotFound := by
  exact ⟨by decide, rfl, rfl⟩

/-- C8 (amended): a verification request with a missing session id,
code or phone, or with a malformed code, is rejected immediately with a
400 validation error; no session-store operation is performed, the
store is unchanged, no deletion is scheduled and the comparison (hence
any attempt counting) never runs. -/
theorem c8_amended_validation_rejects_without_store_access
    (env : VerifyEnv) (req : VerifyRequest) (store : Store) (r : VerifyResult)
    (h : (falsy req.sessionId || falsy req.otp || falsy req.phone) = true ∨
      isValidOTP (req.otp.getD "") = false)
    (hr : r = verifyOtp env "POST" req store) :
    (r.outcome = .missingFields ∨ r.outcome = .invalidOtpFormat) ∧
    verifyStatus r.outcome = 400 ∧
    r.storeReads = 0 ∧ r.store = store ∧ r.scheduledDeletes = [] ∧
    r.compareCalled = false := by
  subst hr
  rcases h with h | h
  · simp [verifyOtp, h, verifyStatus]
  · by_cases hf : (falsy req.sessionId || falsy req.otp || falsy req.phone) = true
    · simp [verifyOtp, hf, verifyStatus]
    · simp [verifyOtp, hf, h, verifyStatus]

/-- Witness for the amended C8: the concrete malformed code `12a` is
rejected as `INVALID_OTP_FORMAT` with no store access. -/
theorem c8_amended_witness :
    ((falsy (some "sess1") || falsy (some "12a") || falsy (some "+2348100000000")) = true ∨
      isValidOTP ((some "12a").getD "") = false) ∧
    ((verifyOtp envVerify "POST"
        ⟨some "sess1", some "12a", some "+2348100000000"⟩ []).outcome = .missingFields ∨
      (verifyOtp envVerify "POST"
        ⟨some "sess1", some "12a", some "+2348100000000"⟩ []).outcome = .invalidOtpFormat) := by
  have h : (falsy (some "sess1") || falsy (some "12a") ||
      falsy (some "+2348100000000")) = true ∨
      isValidOTP ((some "12a").getD "") = false := Or.inr (by decide)
  exact ⟨h, (c8_amended_validation_rejects_without_store_access envVerify
    ⟨some "sess1", some "12a", some "+2348100000000"⟩ [] _ h rfl).1⟩

/-- C2: on every well-formed verification request the checks run in
source order, first match winning: missing session → SESSION_NOT_FOUND;
bound phone ≠ request phone → PHONE_MISMATCH; used → OTP_ALREADY_USED;
now past expiresAt → EXPIRED_OTP; attempts ≥ 5 → MAX_ATTEMPTS_EXCEEDED;
failed comparison → INVALID_OTP; otherwise the success transition — and
the bcrypt comparison runs only when every earlier check has passed. -/
theorem c2_verify_checks_ordered (env : VerifyEnv) (sid otp phone : String)
    (store : Store) (r : VerifyResult)
    (hsid : (sid == "") = false) (hotp : isValidOTP otp = true)
    (hph : (phone == "") = false)
    (hr : r = verifyOtp env "POST" ⟨some sid, some otp, some phone⟩ store) :
    (store.lookup sid = none → r = ⟨.sessionNotFound, store, [], false, 1⟩) ∧
    (∀ s, store.lookup sid = some s →
      ((s.phone ≠ phone → r = ⟨.phoneMismatch, store, [], false, 1⟩) ∧
       (s.phone = phone → s.used = true →
         r = ⟨.otpAlreadyUsed, store, [], false, 1⟩) ∧
       (s.phone = phone → s.used = false → s.expiresAt < env.now →
         r = ⟨.expiredOtp, storeDelete store sid, [], false, 1⟩) ∧
       (s.phone = phone → s.used = false → ¬ s.expiresAt < env.now →
         5 ≤ s.attempts →
         r = ⟨.maxAttemptsExceeded, storeDelete store sid, [], false, 1⟩) ∧
       (s.phone = phone → s.used = false → ¬ s.expiresAt < env.now →
         s.attempts < 5 → env.compare otp s.otpHash = false →
         r = ⟨.invalidOtp (5 - (s.attempts + 1)),
              storeUpdate store sid (fun t => { t with attempts := s.attempts + 1 }),
              [], true, 1⟩) ∧
       (s.phone = phone → s.used = false → ¬ s.expiresAt < env.now →
         s.attempts < 5 → env.compare otp s.otpHash = true →
         r = ⟨verifySuccessOutcome env phone s,
              storeUpdate store sid (fun t => { t with used := true }),
              [sid], true, 1⟩ ∧ tookSuccessTransition r.outcome = true))) ∧
    (r.compareCalled = true →
      ∃ s, store.lookup sid = some s ∧ s.phone = phone ∧ s.used = false ∧
        ¬ s.expiresAt < env.now ∧ s.attempts < 5) := by
  subst hr
  refine ⟨verifyOtp_eq_notFound env sid otp phone store hsid hotp hph, ?_, ?_⟩
  · intro s hlk
    refine ⟨verifyOtp_eq_phoneMismatch env sid otp phone store s hsid hotp hph hlk,
      verifyOtp_eq_used env sid otp phone store s hsid hotp hph hlk,
      verifyOtp_eq_expired env sid otp phone store s hsid hotp hph hlk,
      verifyOtp_eq_maxAttempts env sid otp phone store s hsid hotp hph hlk,
      verifyOtp_eq_badCompare env sid otp phone store s hsid hotp hph hlk, ?_⟩
    intro heq hu hexp hlt hcmp
    have h6 := verifyOtp_eq_success env sid otp phone store s hsid hotp hph hlk
      heq hu hexp hlt hcmp
    refine ⟨h6, ?_⟩
    rw [h6]
    exact tookSuccessTransition_verifySuccessOutcome env phone s
  · intro hc
    rcases hlk : store.lookup sid with _ | s
    · rw [verifyOtp_eq_notFound env sid otp phone store hsid hotp hph hlk] at hc
      simp at hc
    · by_cases heq : s.phone = phone
      · rcases Bool.eq_false_or_eq_true s.used with hu | hu
        · rw [verifyOtp_eq_used env sid otp phone store s hsid hotp hph hlk heq hu] at hc
          simp at hc
        · by_cases hexp : s.expiresAt < env.now
          · rw [verifyOtp_eq_expired env sid otp phone store s hsid hotp hph hlk
              heq hu hexp] at hc
            simp at hc
          · by_cases hfive : 5 ≤ s.attempts
            · rw [verifyOtp_eq_maxAttempts env sid otp phone store s hsid hotp hph hlk
                heq hu hexp hfive] at hc
              simp at hc
            · exact ⟨s, rfl, heq, hu, hexp, Nat.lt_of_not_le hfive⟩
      · rw [verifyOtp_eq_phoneMismatch env sid otp phone store s hsid hotp hph hlk heq] at hc
        simp at hc

/-- Witness for C2: on an empty store the concrete well-formed request
is answered `SESSION_NOT_FOUND` without calling the comparison. -/
theorem c2_witness :
    (("sess1" : String) == "") = false ∧ isValidOTP "123456" = true ∧
    (("+2348100000000" : String) == "") = false ∧
    verifyOtp envVerify "POST"
        ⟨some "sess1", some "123456", some "+2348100000000"⟩ [] =
      ⟨.sessionNotFound, [], [], false, 1⟩ :=
  ⟨by decide, by decide, by decide,
    (c2_verify_checks_ordered envVerify "sess1" "123456" "+2348100000000" [] _
      (by decide) (by decide) (by decide) rfl).1 rfl⟩

/-- A session with its attempt budget exhausted (`attempts = 5`),
otherwise fresh. -/
def sessMax : Session :=
  { phone := "+2348100000000", otpHash := "H123456", createdAt := 0,
    expiresAt := 300000, attempts := 5, source := "whatsapp", used := false,
    name := none, email := none, messageSid := "SM1" }

/-- C4: a verification request whose (matching, unused, unexpired)
session has `attempts ≥ 5` is answered `MAX_ATTEMPTS_EXCEEDED` and the
session is deleted — regardless of whether the submitted code is
correct: `env.compare` is arbitrary and is never invoked. -/
theorem c4_max_attempts_always_locks (env : VerifyEnv) (sid otp phone : String)
    (store : Store) (s : Session) (r : VerifyResult)
    (hsid : (sid == "") = false) (hotp : isValidOTP otp = true)
    (hph : (phone == "") = false)
    (hlk : store.lookup sid = some s) (heq : s.phone = phone)
    (hu : s.used = false) (hexp : ¬ s.expiresAt < env.now)
    (h5 : 5 ≤ s.attempts)
    (hr : r = verifyOtp env "POST" ⟨some sid, some otp, some phone⟩ store) :
    r.outcome = .maxAttemptsExceeded ∧
    r.store = storeDelete store sid ∧
    r.store.lookup sid = none ∧
    r.compareCalled = false := by
  subst hr
  rw [verifyOtp_eq_maxAttempts env sid otp phone store s hsid hotp hph hlk heq hu hexp h5]
  exact ⟨rfl, rfl, lookup_storeDelete_self store sid, rfl⟩

/-- Witness for C4 at a concrete exhausted session. -/
theorem c4_witness :
    ([("sess1", sessMax)] : Store).lookup "sess1" = some sessMax ∧
    5 ≤ sessMax.attempts ∧
    (verifyOtp envVerify "POST"
      ⟨some "sess1", some "123456", some "+2348100000000"⟩
      [("sess1", sessMax)]).outcome = .maxAttemptsExceeded ∧
    ((verifyOtp envVerify "POST"
      ⟨some "sess1", some "123456", some "+2348100000000"⟩
      [("sess1", sessMax)]).store).lookup "sess1" = none := by
  have h := c4_max_attempts_always_locks envVerify "sess1" "123456"
    "+2348100000000" [("sess1", sessMax)] sessMax _ (by decide) (by decide)
    (by decide) rfl rfl rfl (by decide) (by decide) rfl
  exact ⟨rfl, by decide, h.1, h.2.2.1⟩

/-- C7: a verification request whose phone differs from the session's
bound phone is answered `PHONE_MISMATCH` and the store is left
completely unchanged — attempts not incremented, `used` not set, the
session not deleted, and no deletion scheduled. -/
theorem c7_phone_mismatch_frame (env : VerifyEnv) (sid otp phone : String)
    (store : Store) (s : Session) (r : VerifyResult)
    (hsid : (sid == "") = false) (hotp : isValidOTP otp = true)
    (hph : (phone == "") = false)
    (hlk : store.lookup sid = some s) (hne : s.phone ≠ phone)
    (hr : r = verifyOtp env "POST" ⟨some sid, some otp, some phone⟩ store) :
    r.outcome = .phoneMismatch ∧
    r.store = store ∧
    r.scheduledDeletes = [] ∧
    r.compareCalled = false := by
  subst hr
  rw [verifyOtp_eq_phoneMismatch env sid otp phone store s hsid hotp hph hlk hne]
  exact ⟨rfl, rfl, rfl, rfl⟩

/-- Witness for C7: request phone differs from `sessMax`'s bound phone;
the store is returned unchanged. -/
theorem c7_witness :
    sessMax.phone ≠ "+2348100000001" ∧
    (verifyOtp envVerify "POST"
      ⟨some "sess1", some "123456", some "+2348100000001"⟩
      [("sess1", sessMax)]).outcome = .phoneMismatch ∧
    (verifyOtp envVerify "POST"
      ⟨some "sess1", some "123456", some "+2348100000001"⟩
      [("sess1", sessMax)]).store = [("sess1", sessMax)] := by
  have h := c7_phone_mismatch_frame envVerify "sess1" "123456"
    "+2348100000001" [("sess1", sessMax)] sessMax _ (by decide) (by decide)
    (by decide) rfl (by decide) rfl
  exact ⟨by decide, h.1, h.2.1⟩

/-! ### Branch facts for the issuance paths -/

theorem sendOtp_of_twilioFail (env : SendEnv) (method : String)
    (req : SendRequest) (store : Store) (h : env.twilio.success = false) :
    (sendOtp env method req store).store = store ∧
    ((sendOtp env method req store).twilioCalled = true →
      (sendOtp env method req store).outcome = .sendFailed env.twilio.error) := by
  by_cases h1 : method ≠ "POST"
  · simp [sendOtp, h1]
  · by_cases h2 : falsy req.phone = true
    · simp [sendOtp, h1, h2]
    · by_cases h3 : isValidPhoneNumber (req.phone.getD "") = true
      · rcases hrl : checkRateLimit env.queryFails store (req.phone.getD "") env.now
          with _ | wm
        · simp [sendOtp, h1, h2, h3, hrl, h]
        · simp [sendOtp, h1, h2, h3, hrl]
      · simp [sendOtp, h1, h2, h3]

theorem handleRequestOTP_of_twilioFail (env : ResetEnv) (phone? : Option String)
    (store : Store) (h : env.twilio.success = false) :
    (handleRequestOTP env phone? store).store = store ∧
    ((handleRequestOTP env phone? store).twilioCalled = true →
      (handleRequestOTP env phone? store).outcome = .sendFailed env.twilio.error) := by
  by_cases h1 : (falsy phone? || !(isValidPhoneNumber (phone?.getD ""))) = true
  · simp [handleRequestOTP, h1]
  · rcases hrl : checkResetRateLimit env.queryFails store (phone?.getD "") env.now
      with _ | wm
    · rcases ha : env.authLookup with uid | _ | _
      · simp [handleRequestOTP, h1, hrl, ha, h]
      · simp [handleRequestOTP, h1, hrl, ha]
      · simp [handleRequestOTP, h1, hrl, ha]
    · simp [handleRequestOTP, h1, hrl]

theorem sendOtp_preserves_sessions (env : SendEnv) (method : String)
    (req : SendRequest) (store : Store) (id : String)
    (h : (store.lookup id).isSome = true) :
    (((sendOtp env method req store).store).lookup id).isSome = true := by
  by_cases h1 : method ≠ "POST"
  · simpa [sendOtp, h1] using h
  · by_cases h2 : falsy req.phone = true
    · simpa [sendOtp, h1, h2] using h
    · by_cases h3 : isValidPhoneNumber (req.phone.getD "") = true
      · rcases hrl : checkRateLimit env.queryFails store (req.phone.getD "") env.now
          with _ | wm
        · rcases Bool.eq_false_or_eq_true env.twilio.success with hs | hs
          · have hred : (sendOtp env method req store).store =
                store ++ [(env.newSessionId,
                  { phone := req.phone.getD "", otpHash := env.hash env.otp,
                    createdAt := env.now, expiresAt := env.now + 300000,
                    attempts := 0, source := orDefault req.source "whatsapp",
                    used := false, name := orNull req.name,
                    email := orNull req.email,
                    messageSid := env.twilio.messageSid })] := by
              simp [sendOtp, h1, h2, h3, hrl, hs]
            rw [hred, lookup_append_of_isSome store _ id h]
            exact h
          · simpa [sendOtp, h1, h2, h3, hrl, hs] using h
        · simpa [sendOtp, h1, h2, h3, hrl] using h
      · simpa [sendOtp, h1, h2, h3] using h

theorem sendOtp_eq_rateLimited (env : SendEnv) (phone : String)
    (req : SendRequest) (store : Store) (wm : Int)
    (hreq : req.phone = some phone)
    (hvalid : isValidPhoneNumber phone = true)
    (hrl : checkRateLimit env.queryFails store phone env.now = .limited wm) :
    sendOtp env "POST" req store =
      { outcome := .rateLimited wm (wm * 60), store := store,
        logs := ["[sendOtp] OTP request for " ++ maskPhoneNumber phone,
                 "[sendOtp] Rate limit exceeded for " ++ maskPhoneNumber phone],
        twilioCalled := false } := by
  have hph0 : (phone == "") = false := isValidPhoneNumber_ne_empty phone hvalid
  simp [sendOtp, hreq, falsy, hph0, hvalid, hrl]

/-- C3: a failed Delivery Dispatcher send prevents session persistence
on both issuance paths.  When the Twilio result reports failure, the
store is returned unchanged and — whenever the send was actually
reached — the caller gets the 500 send-failure response; conversely,
any invocation that changes the store had a successful send. -/
theorem c3_send_failure_prevents_persistence
    (envS : SendEnv) (methodS : String) (reqS : SendRequest) (storeS : Store)
    (envR : ResetEnv) (phoneR : Option String) (storeR : Store)
    (env2 : SendEnv) (m2 : String) (r2 : SendRequest) (st2 : Store)
    (hs : envS.twilio.success = false) (hf : envR.twilio.success = false) :
    (sendOtp envS methodS reqS storeS).store = storeS ∧
    ((sendOtp envS methodS reqS storeS).twilioCalled = true →
      (sendOtp envS methodS reqS storeS).outcome = .sendFailed envS.twilio.error ∧
      sendStatus (sendOtp envS methodS reqS storeS).outcome = 500) ∧
    (handleRequestOTP envR phoneR storeR).store = storeR ∧
    ((handleRequestOTP envR phoneR storeR).twilioCalled = true →
      (handleRequestOTP envR phoneR storeR).outcome = .sendFailed envR.twilio.error ∧
      resetStatus (handleRequestOTP envR phoneR storeR).outcome = 500) ∧
    ((sendOtp env2 m2 r2 st2).store ≠ st2 → env2.twilio.success = true) := by
  obtain ⟨ha, hb⟩ := sendOtp_of_twilioFail envS methodS reqS storeS hs
  obtain ⟨hc, hd⟩ := handleRequestOTP_of_twilioFail envR phoneR storeR hf
  refine ⟨ha, fun hcall => ?_, hc, fun hcall => ?_, fun hne => ?_⟩
  · have hout := hb hcall
    exact ⟨hout, by rw [hout]; rfl⟩
  · have hout := hd hcall
    exact ⟨hout, by rw [hout]; rfl⟩
  · rcases Bool.eq_false_or_eq_true env2.twilio.success with h0 | h0
    · exact h0
    · exact absurd (sendOtp_of_twilioFail env2 m2 r2 st2 h0).1 hne

/-- Issuance environment whose Twilio send fails. -/
def envIssueFail : SendEnv :=
  { envIssue with
    twilio := { success := false, messageSid := "", error := "TWILIO_SEND_FAILED",
                message := "Failed to send OTP. Please try again." } }

/-- Reset-path environment whose Twilio send fails for an existing
account. -/
def envResetFail : ResetEnv :=
  { now := 0, queryFails := false, authLookup := .found "uid1",
    otp := "123456", hash := fun c => "H" ++ c, newSessionId := "rsess1",
    twilio := { success := false, messageSid := "", error := "TWILIO_SEND_FAILED",
                message := "Failed to send OTP" } }

/-- Witness for C3: with a failing send, both issuance paths leave an
empty store empty and answer the 500 send-failure response. -/
theorem c3_witness :
    envIssueFail.twilio.success = false ∧
    envResetFail.twilio.success = false ∧
    (sendOtp envIssueFail "POST" reqIssue []).store = ([] : Store) ∧
    (sendOtp envIssueFail "POST" reqIssue []).outcome =
      .sendFailed "TWILIO_SEND_FAILED" ∧
    (handleRequestOTP envResetFail (some "+2348100000000") []).store = ([] : Store) ∧
    (handleRequestOTP envResetFail (some "+2348100000000") []).outcome =
      .sendFailed "TWILIO_SEND_FAILED" := by
  have h := c3_send_failure_prevents_persistence envIssueFail "POST" reqIssue []
    envResetFail (some "+2348100000000") [] envIssueFail "POST" reqIssue []
    rfl rfl
  exact ⟨rfl, rfl, h.1, (h.2.1 rfl).1, h.2.2.1, (h.2.2.2.1 rfl).1⟩

/-- C5: once a phone has 3 or more sessions inside the trailing
15-minute window, a further issuance request is rejected with the
rate-limit error; its machine-readable retry-after value equals the
oldest qualifying session's creation time plus 15 minutes minus now,
rounded up to whole minutes (and expressed in seconds), and lies in
(0, 900]. -/
theorem c5_rate_limit_retry_after (env : SendEnv) (phone : String)
    (req : SendRequest) (store : Store) (r : SendResult)
    (hreq : req.phone = some phone)
    (hvalid : isValidPhoneNumber phone = true)
    (hq : env.queryFails = false)
    (hcount : 3 ≤ (recentSessions store phone (env.now - 15 * 60 * 1000)).length)
    (hold : oldestCreatedAt
        (recentSessions store phone (env.now - 15 * 60 * 1000)) ≤ env.now)
    (hr : r = sendOtp env "POST" req store) :
    ∃ wm,
      wm = ceilDiv (oldestCreatedAt (recentSessions store phone
            (env.now - 15 * 60 * 1000)) + 15 * 60 * 1000 - env.now) 60000 ∧
      r.outcome = .rateLimited wm (wm * 60) ∧
      sendStatus r.outcome = 429 ∧
      0 < wm * 60 ∧ wm * 60 ≤ 900 ∧
      r.store = store ∧ r.twilioCalled = false := by
  subst hr
  have hlow : env.now - 15 * 60 * 1000 <
      oldestCreatedAt (recentSessions store phone (env.now - 15 * 60 * 1000)) := by
    have hne : recentSessions store phone (env.now - 15 * 60 * 1000) ≠ [] := by
      intro hnil
      rw [hnil] at hcount
      simp at hcount
    obtain ⟨s, hs, hoeq⟩ := oldestCreatedAt_mem _ hne
    rw [hoeq]
    simp only [recentSessions] at hs
    have h2 := (List.mem_filter.mp hs).2
    simp at h2
    exact h2.2
  have hcount' : 3 ≤ (recentSessions store phone (env.now - 900000)).length := by
    simpa using hcount
  have hrl : checkRateLimit env.queryFails store phone env.now =
      .limited (ceilDiv (oldestCreatedAt (recentSessions store phone
        (env.now - 15 * 60 * 1000)) + 15 * 60 * 1000 - env.now) 60000) := by
    simp [checkRateLimit, hq, hcount']
  rw [sendOtp_eq_rateLimited env phone req store _ hreq hvalid hrl]
  refine ⟨_, rfl, rfl, rfl, ?_, ?_, rfl, rfl⟩
  · unfold ceilDiv
    omega
  · unfold ceilDiv
    omega

/-- A session for `+2348100000000` created at time `t`. -/
def sessRL (t : Int) : Session :=
  { phone := "+2348100000000", otpHash := "H123456", createdAt := t,
    expiresAt := t + 300000, attempts := 0, source := "whatsapp",
    used := false, name := none, email := none, messageSid := "SM" }

/-- Three recent sessions for the same phone. -/
def storeRL : Store :=
  [("a", sessRL 0), ("b", sessRL 60000), ("c", sessRL 120000)]

/-- Issuance environment at `now = 600000` (ten minutes after the first
session of `storeRL`). -/
def envRL : SendEnv := { envIssue with now := 600000 }

/-- Witness for C5: the 4th request at `now = 600000` is rejected with
a positive retry-after of at most 900 seconds. -/
theorem c5_witness :
    3 ≤ (recentSessions storeRL "+2348100000000"
      (envRL.now - 15 * 60 * 1000)).length ∧
    oldestCreatedAt (recentSessions storeRL "+2348100000000"
      (envRL.now - 15 * 60 * 1000)) ≤ envRL.now ∧
    ∃ wm, (sendOtp envRL "POST" reqIssue storeRL).outcome =
        .rateLimited wm (wm * 60) ∧ 0 < wm * 60 ∧ wm * 60 ≤ 900 := by
  obtain ⟨wm, hwm, hout, hst, hpos, hle, _, _⟩ :=
    c5_rate_limit_retry_after envRL "+2348100000000" reqIssue storeRL _
      rfl (by decide) rfl (by decide) (by decide) rfl
  exact ⟨by decide, by decide, wm, hout, hpos, hle⟩

/-- C6: the rate limiter fails open.  When the backing-store query
throws, `checkRateLimit` / `checkResetRateLimit` return allowed, and a
well-formed issuance request proceeds all the way to the delivery
dispatch — a store error never produces a rate-limit rejection. -/
theorem c6_rate_limiter_fail_open (store storeR : Store) (phone phoneR : String)
    (now nowR : Int) (envS : SendEnv) (req : SendRequest) (envR : ResetEnv)
    (uid : String)
    (hq : envS.queryFails = true) (hreq : req.phone = some phone)
    (hvalid : isValidPhoneNumber phone = true)
    (hqR : envR.queryFails = true) (hauth : envR.authLookup = .found uid)
    (hphR : isValidPhoneNumber phoneR = true) :
    checkRateLimit true store phone now = .allowed ∧
    checkResetRateLimit true storeR phoneR nowR = .allowed ∧
    (sendOtp envS "POST" req store).twilioCalled = true ∧
    (handleRequestOTP envR (some phoneR) storeR).twilioCalled = true := by
  refine ⟨rfl, rfl, ?_, ?_⟩
  · have hph0 : (phone == "") = false := isValidPhoneNumber_ne_empty phone hvalid
    have hrl : checkRateLimit envS.queryFails store phone envS.now = .allowed := by
      rw [hq]
      simp [checkRateLimit]
    rcases Bool.eq_false_or_eq_true envS.twilio.success with hs | hs <;>
      simp [sendOtp, hreq, falsy, hph0, hvalid, hrl, hs]
  · have hph0 : (phoneR == "") = false := isValidPhoneNumber_ne_empty phoneR hphR
    have hrl : checkResetRateLimit envR.queryFails storeR phoneR envR.now =
        .allowed := by
      rw [hqR]
      simp [checkResetRateLimit]
    rcases Bool.eq_false_or_eq_true envR.twilio.success with hs | hs <;>
      simp [handleRequestOTP, falsy, hph0, hphR, hrl, hauth, hs]

/-- Witness for C6: with the query throwing, issuance over a store that
would otherwise be over the limit still reaches the dispatcher. -/
theorem c6_witness :
    ({ envRL with queryFails := true } : SendEnv).queryFails = true ∧
    checkRateLimit true storeRL "+2348100000000" 600000 = .allowed ∧
    (sendOtp { envRL with queryFails := true } "POST" reqIssue
      storeRL).twilioCalled = true := by
  have h := c6_rate_limiter_fail_open storeRL [] "+2348100000000"
    "+2348100000000" 600000 0 { envRL with queryFails := true } reqIssue
    { envResetFail with queryFails := true } "uid1"
    rfl rfl (by decide) rfl rfl (by decide)
  exact ⟨rfl, h.1, h.2.2.1⟩

/-- Frame of one `verifyOtp` invocation: the store is unchanged, or one
document was deleted on the expiry / attempt-limit paths, or it was
updated key-preservingly; and a grace-delay deletion is scheduled only
when every check passed and the comparison succeeded. -/
theorem verifyOtp_frame (env : VerifyEnv) (method : String)
    (req : VerifyRequest) (store : Store) :
    ((verifyOtp env method req store).store = store ∨
     ((verifyOtp env method req store).store =
        storeDelete store (req.sessionId.getD "") ∧
      ((verifyOtp env method req store).outcome = .expiredOtp ∨
       (verifyOtp env method req store).outcome = .maxAttemptsExceeded)) ∨
     (∀ id, (((verifyOtp env method req store).store).lookup id).isSome =
        (store.lookup id).isSome)) ∧
    ((verifyOtp env method req store).scheduledDeletes ≠ [] →
      (verifyOtp env method req store).compareCalled = true ∧
      tookSuccessTransition (verifyOtp env method req store).outcome = true) := by
  by_cases h1 : method ≠ "POST"
  · simp [verifyOtp, h1]
  · by_cases h2 : (falsy req.sessionId || falsy req.otp || falsy req.phone) = true
    · simp [verifyOtp, h1, h2]
    · by_cases h3 : isValidOTP (req.otp.getD "") = true
      · rcases hlk : store.lookup (req.sessionId.getD "") with _ | s
        · simp [verifyOtp, h1, h2, h3, hlk]
        · by_cases h4 : s.phone ≠ req.phone.getD ""
          · simp [verifyOtp, h1, h2, h3, hlk, h4]
          · rcases Bool.eq_false_or_eq_true s.used with h5 | h5
            · simp [verifyOtp, h1, h2, h3, hlk, h4, h5]
            · by_cases h6 : s.expiresAt < env.now
              · simp [verifyOtp, h1, h2, h3, hlk, h4, h5, h6]
              · by_cases h7 : 5 ≤ s.attempts
                · simp [verifyOtp, h1, h2, h3, hlk, h4, h5, h6, h7]
                · rcases Bool.eq_false_or_eq_true
                    (env.compare (req.otp.getD "") s.otpHash) with h8 | h8
                  · simp [verifyOtp, h1, h2, h3, hlk, h4, h5, h6, h7, h8,
                      lookup_storeUpdate_isSome,
                      tookSuccessTransition_verifySuccessOutcome]
                  · simp [verifyOtp, h1, h2, h3, hlk, h4, h5, h6, h7, h8,
                      lookup_storeUpdate_isSome]
      · simp [verifyOtp, h1, h2, h3]

/-- C9: a session disappears from the store within one `verifyOtp`
invocation only on the expiry-detection or attempt-exhaustion paths; a
grace-delay deletion is scheduled (never an immediate delete) only on
the success transition; and `sendOtp` never removes a session.  The
success transition (mark used, schedule deletion) precedes the Firebase
Auth calls, so a scheduled deletion can coexist with an
`internalError` response (see C10). -/
theorem c9_deletion_only_on_three_events (env : VerifyEnv) (method : String)
    (req : VerifyRequest) (store : Store) (r : VerifyResult)
    (envS : SendEnv) (methodS : String) (reqS : SendRequest) (storeS : Store)
    (hr : r = verifyOtp env method req store) :
    (∀ id, (store.lookup id).isSome = true → r.store.lookup id = none →
      r.outcome = .expiredOtp ∨ r.outcome = .maxAttemptsExceeded) ∧
    (r.scheduledDeletes ≠ [] →
      r.compareCalled = true ∧ tookSuccessTransition r.outcome = true) ∧
    (∀ id, (storeS.lookup id).isSome = true →
      (((sendOtp envS methodS reqS storeS).store).lookup id).isSome = true) := by
  subst hr
  obtain ⟨hshape, hsched⟩ := verifyOtp_frame env method req store
  refine ⟨?_, hsched,
    fun id h => sendOtp_preserves_sessions envS methodS reqS storeS id h⟩
  intro id hsome hnone
  rcases hshape with hst | ⟨hst, hout⟩ | hiso
  · rw [hst] at hnone
    rw [hnone] at hsome
    simp at hsome
  · exact hout
  · have hiso' := hiso id
    rw [hnone] at hiso'
    rw [← hiso'] at hsome
    simp at hsome

/-- An expired session (expiry in the past relative to `envVerify`). -/
def sessExpired : Session := { sessMax with attempts := 0, expiresAt := -1 }

/-- Witness for C9: an expired session is removed by the invocation
that detects the expiry, and the outcome is one of the two immediate
deletion events. -/
theorem c9_witness :
    (([("sess1", sessExpired)] : Store).lookup "sess1").isSome = true ∧
    ((verifyOtp envVerify "POST"
        ⟨some "sess1", some "123456", some "+2348100000000"⟩
        [("sess1", sessExpired)]).store).lookup "sess1" = none ∧
    ((verifyOtp envVerify "POST"
        ⟨some "sess1", some "123456", some "+2348100000000"⟩
        [("sess1", sessExpired)]).outcome = .expiredOtp ∨
     (verifyOtp envVerify "POST"
        ⟨some "sess1", some "123456", some "+2348100000000"⟩
        [("sess1", sessExpired)]).outcome = .maxAttemptsExceeded) := by
  have h := c9_deletion_only_on_three_events envVerify "POST"
    ⟨some "sess1", some "123456", some "+2348100000000"⟩
    [("sess1", sessExpired)] _ envIssue "POST" reqIssue [] rfl
  exact ⟨by decide, rfl, h.1 "sess1" (by decide) rfl⟩

/-- C10: on the success path `used = true` is persisted before the
Firebase Auth calls; if one of those throws, the caller receives the
generic 500 `INTERNAL_ERROR` while the session stays marked used, so an
immediate retry with the same (correct) code — before the scheduled
grace-delay deletion runs — fails with `OTP_ALREADY_USED` under any
later environment. -/
theorem c10_used_persisted_before_idp (env env2 : VerifyEnv)
    (sid otp phone : String) (store : Store) (s : Session) (r : VerifyResult)
    (hsid : (sid == "") = false) (hotp : isValidOTP otp = true)
    (hph : (phone == "") = false)
    (hlk : store.lookup sid = some s) (heq : s.phone = phone)
    (hu : s.used = false) (hexp : ¬ s.expiresAt < env.now)
    (hlt : s.attempts < 5) (hcmp : env.compare otp s.otpHash = true)
    (hthrow : idpThrows env phone = true)
    (hr : r = verifyOtp env "POST" ⟨some sid, some otp, some phone⟩ store) :
    r.outcome = .internalError ∧
    verifyStatus r.outcome = 500 ∧
    r.store.lookup sid = some { s with used := true } ∧
    r.scheduledDeletes = [sid] ∧
    (verifyOtp env2 "POST" ⟨some sid, some otp, some phone⟩ r.store).outcome =
      .otpAlreadyUsed := by
  subst hr
  rw [verifyOtp_eq_success env sid otp phone store s hsid hotp hph hlk heq hu
    hexp hlt hcmp]
  have hio := verifySuccessOutcome_of_idpThrows env phone s hthrow
  have hlk2 : (storeUpdate store sid
      (fun t => { t with used := true })).lookup sid =
      some { s with used := true } :=
    lookup_storeUpdate_self store sid _ s hlk
  refine ⟨hio, by rw [show (⟨verifySuccessOutcome env phone s, _, _, _, _⟩ :
      VerifyResult).outcome = verifySuccessOutcome env phone s from rfl, hio]; rfl,
    hlk2, rfl, ?_⟩
  rw [verifyOtp_eq_used env2 sid otp phone _ { s with used := true }
    hsid hotp hph hlk2 heq rfl]

/-- Verification environment whose Firebase Auth lookup throws while
the code comparison succeeds. -/
def envThrow : VerifyEnv :=
  { now := 0, compare := fun _ _ => true,
    getUserByPhone := fun _ => .failure,
    createCustomToken := fun u => .ok u, createUser := fun p => .ok p }

/-- A fresh unused session bound to `+2348100000000`. -/
def sessFresh : Session := { sessMax with attempts := 0 }

/-- Witness for C10: with a throwing Identity Provider the concrete
request gets `INTERNAL_ERROR`, the session is marked used, and the
immediate retry gets `OTP_ALREADY_USED`. -/
theorem c10_witness :
    idpThrows envThrow "+2348100000000" = true ∧
    (verifyOtp envThrow "POST"
      ⟨some "sess1", some "123456", some "+2348100000000"⟩
      [("sess1", sessFresh)]).outcome = .internalError ∧
    (verifyOtp envThrow "POST"
      ⟨some "sess1", some "123456", some "+2348100000000"⟩
      ((verifyOtp envThrow "POST"
        ⟨some "sess1", some "123456", some "+2348100000000"⟩
        [("sess1", sessFresh)]).store)).outcome = .otpAlreadyUsed := by
  have h := c10_used_persisted_before_idp envThrow envThrow "sess1" "123456"
    "+2348100000000" [("sess1", sessFresh)] sessFresh _ (by decide) (by decide)
    (by decide) rfl rfl rfl (by decide) (by decide) rfl (by decide) rfl
  exact ⟨by decide, h.1, h.2.2.2.2⟩

end Unitwise
